import Mathlib

/-!
Shallow embedding of `workout_api/atleta/controller.py` (the athlete CRUD
controller of the workout_api repository) together with the data it touches.

The controller is the only source file; the ORM models
(`AtletaModel`, `CategoriaModel`, `CentroTreinamentoModel`) and the pydantic
schemas (`AtletaIn`, `AtletaOut`, `AtletaUpdate`, `AtletaListOut`) are not in
the repository snapshot, so their field sets are modelled from the spec's data
model (section 3) and input descriptions (section 4.1).

The database session is modelled as an explicit `Store` value threaded through
each operation; a transaction that is rolled back returns the pre-operation
store.  The unique-CPF constraint raises the embedded analogue of
`IntegrityError` exactly when the committed row's CPF collides with another
row's CPF.  Any other persistence failure (the `except Exception` arm of the
create path) is injected through an explicit `fault` flag.
-/

/-- Modelled from the spec: `CategoriaModel` (surrogate key `pk_id`, unique
`nome`); the file `workout_api/categorias/models.py` is not under `src`. -/
structure Categoria where
  pk_id : Nat
  nome : String
deriving DecidableEq, Repr

/-- Modelled from the spec: `CentroTreinamentoModel` (surrogate key `pk_id`,
unique `nome`); `workout_api/centro_treinamento/models.py` is not under `src`. -/
structure CentroTreinamento where
  pk_id : Nat
  nome : String
deriving DecidableEq, Repr

/-- Modelled from the spec: `AtletaModel` (surrogate key `pk_id`, `nome`,
11-char globally unique `cpf`, server-assigned `created_at`, foreign keys
`categoria_id` and `centro_treinamento_id`); `workout_api/atleta/models.py`
is not under `src`.  The creation timestamp is a `Nat` tick. -/
structure Atleta where
  pk_id : Nat
  nome : String
  cpf : String
  created_at : Nat
  categoria_id : Nat
  centro_treinamento_id : Nat
deriving DecidableEq, Repr

/-- Modelled from the spec: the nested category reference of `AtletaIn`
(a category name). -/
structure CategoriaIn where
  nome : String
deriving DecidableEq, Repr

/-- Modelled from the spec: the nested training-center reference of
`AtletaIn` (a training-center name). -/
structure CentroTreinamentoIn where
  nome : String
deriving DecidableEq, Repr

/-- Modelled from the spec: `AtletaIn` — name, CPF, category name and
training-center name (`workout_api/atleta/schemas.py` is not under `src`).
Per the spec the input carries no timestamp field: the creation timestamp is
"server-assigned at creation, immutable thereafter" and "never
client-supplied". -/
structure AtletaIn where
  nome : String
  cpf : String
  categoria : CategoriaIn
  centro_treinamento : CentroTreinamentoIn
deriving DecidableEq, Repr

/-- Modelled from the spec: `AtletaUpdate` — "a partial set of fields (only
fields explicitly present in the payload are considered set)"; the patch
handler assigns each present field raw onto the row, "including foreign-key
columns" (spec sections 4.1 and 9).  `some v` models a field present in the
payload with value `v`; `none` models an absent field.
`workout_api/atleta/schemas.py` is not under `src`. -/
structure AtletaUpdate where
  nome : Option String
  cpf : Option String
  categoria_id : Option Nat
  centro_treinamento_id : Option Nat
deriving DecidableEq, Repr

/-- The display projection `AtletaListOut` used by the list endpoint:
exactly the fields name, category name and training-center name. -/
structure AtletaListOut where
  nome : String
  categoria : String
  centro_treinamento : String
deriving DecidableEq, Repr

/-- An `HTTPException` as raised by the controller: a status code and a
detail message. -/
structure HTTPException where
  status_code : Nat
  detail : String
deriving DecidableEq, Repr

/-- The database visible to the controller: the three tables plus the
sequence feeding `AtletaModel.pk_id` (the surrogate key generated at flush
time). -/
structure Store where
  categorias : List Categoria
  centros : List CentroTreinamento
  atletas : List Atleta
  next_id : Nat
deriving DecidableEq, Repr

/-- The athlete row built in the create handler:
`AtletaModel(**atleta_in.model_dump(exclude=...), created_at=datetime.now(),
categoria_id=categoria.pk_id, centro_treinamento_id=centro_treinamento.pk_id)`
with `pk_id` assigned by the flush. -/
def mkAtleta (now : Nat) (s : Store) (categoria : Categoria)
    (centro : CentroTreinamento) (i : AtletaIn) : Atleta :=
  { pk_id := s.next_id
    nome := i.nome
    cpf := i.cpf
    created_at := now
    categoria_id := categoria.pk_id
    centro_treinamento_id := centro.pk_id }

/-- `POST /` — the `post` handler.  `now` is the server clock read by
`datetime.now()`; `fault` injects the "any other persistence failure" arm
(`except Exception`).  Category and training center are resolved by exact
name match (`filter_by(nome=...)` then `.first()`); the commit raises the
analogue of `IntegrityError` exactly when the input CPF already belongs to a
stored athlete; every failure rolls the transaction back, returning the
unchanged store. -/
def post (now : Nat) (fault : Bool) (s : Store) (atleta_in : AtletaIn) :
    Except HTTPException Atleta × Store :=
  match s.categorias.find? (fun c => c.nome == atleta_in.categoria.nome) with
  | none =>
      (.error ⟨400, "A categoria " ++ atleta_in.categoria.nome ++ " não foi encontrada."⟩, s)
  | some categoria =>
    match s.centros.find? (fun c => c.nome == atleta_in.centro_treinamento.nome) with
    | none =>
        (.error ⟨400, "O centro de treinamento " ++ atleta_in.centro_treinamento.nome ++ " não foi encontrado."⟩, s)
    | some centro =>
      if s.atletas.any (fun b => b.cpf == atleta_in.cpf) then
        (.error ⟨303, "Já existe um atleta cadastrado com o cpf: " ++ atleta_in.cpf⟩, s)
      else if fault then
        (.error ⟨500, "Ocorreu um erro ao inserir os dados no banco"⟩, s)
      else
        (.ok (mkAtleta now s categoria centro atleta_in),
          { s with
            atletas := s.atletas ++ [mkAtleta now s categoria centro atleta_in]
            next_id := s.next_id + 1 })

/-- Case-insensitive substring test on character lists: `needle` occurs as a
contiguous run of `hay`. -/
def hasSub (needle : List Char) : List Char → Bool
  | [] => needle.isEmpty
  | c :: rest => needle.isPrefixOf (c :: rest) || hasSub needle rest

/-- The `ilike` filter of the list endpoint:
`AtletaModel.nome.ilike(f"%{nome}%")`, i.e. a case-insensitive
"contains". -/
def containsCI (hay needle : String) : Bool :=
  hasSub (needle.data.map Char.toLower) (hay.data.map Char.toLower)

/-- The `paginate(items)` call of `fastapi_pagination` with limit/offset
parameters: position `offset` to `offset + limit` of the already-projected
list, with the total count of the unsliced list. -/
structure LimitOffsetPage where
  items : List AtletaListOut
  total : Nat
  limit : Nat
  offset : Nat
deriving DecidableEq, Repr

/-- `fastapi_pagination.paginate`: slice the materialized list by
offset/limit and record the pre-slice total. -/
def paginate (limit offset : Nat) (items : List AtletaListOut) : LimitOffsetPage :=
  { items := (items.drop offset).take limit
    total := items.length
    limit := limit
    offset := offset }

/-- Row predicate accumulated by the two `stmt.where(...)` guards of the
list handler: `if nome:` adds the case-insensitive contains clause, `if cpf:`
adds the exact-equality clause; Python truthiness means an empty string adds
no clause. -/
def queryMatched (s : Store) (nome cpf : Option String) : List Atleta :=
  s.atletas.filter (fun a =>
    (match nome with
     | none => true
     | some n => if n = "" then true else containsCI a.nome n)
    &&
    (match cpf with
     | none => true
     | some c => if c = "" then true else a.cpf == c))

/-- The joined-load projection of one athlete row:
`a.categoria.nome if a.categoria else ""` with the relationship resolved by
the foreign key, and likewise for the training center. -/
def projectA (s : Store) (a : Atleta) : AtletaListOut :=
  { nome := a.nome
    categoria :=
      match s.categorias.find? (fun c => c.pk_id == a.categoria_id) with
      | some c => c.nome
      | none => ""
    centro_treinamento :=
      match s.centros.find? (fun c => c.pk_id == a.centro_treinamento_id) with
      | some c => c.nome
      | none => "" }

/-- `GET /` — the `query` handler: filter, materialize all matching rows,
project each to `AtletaListOut`, then `paginate`. -/
def query (s : Store) (nome cpf : Option String) (limit offset : Nat) :
    LimitOffsetPage :=
  paginate limit offset ((queryMatched s nome cpf).map (projectA s))

namespace controller

/-- `GET /{id}` — the `get` handler: look up by primary key, 404 with the id
in the message when absent.  It takes no store back out: the handler performs
no write.  Namespaced after the source module to keep the handler's own name
`get` distinct from the monadic `get` of the ambient library. -/
def get (s : Store) (id : Nat) : Except HTTPException Atleta :=
  match s.atletas.find? (fun a => a.pk_id == id) with
  | some a => .ok a
  | none => .error ⟨404, "Atleta não encontrado no id: " ++ toString id⟩

end controller

/-- The `setattr` loop of the patch handler over
`atleta_up.model_dump(exclude_unset=True)`: each present field is assigned
raw onto the loaded row (foreign-key columns included, no name
re-resolution); absent fields keep their prior values; `pk_id` and
`created_at` are not payload fields and never change. -/
def applyUpdate (a : Atleta) (u : AtletaUpdate) : Atleta :=
  { a with
    nome := u.nome.getD a.nome
    cpf := u.cpf.getD a.cpf
    categoria_id := u.categoria_id.getD a.categoria_id
    centro_treinamento_id := u.centro_treinamento_id.getD a.centro_treinamento_id }

/-- `data.get('cpf')` interpolated into the duplicate-key message of the
patch handler: the payload CPF when present, Python's `None` rendering when
absent. -/
def dataGetCpf (u : AtletaUpdate) : String :=
  match u.cpf with
  | some c => c
  | none => "None"

/-- `PATCH /{id}` — the `patch` handler: load by primary key (404 when
absent), apply the present fields, commit.  The commit raises the analogue of
`IntegrityError` exactly when the updated row's CPF collides with a
different row's CPF; then the transaction is rolled back (unchanged store)
and the 303 message carries `data.get('cpf')`. -/
def patch (s : Store) (id : Nat) (atleta_up : AtletaUpdate) :
    Except HTTPException Atleta × Store :=
  match s.atletas.find? (fun a => a.pk_id == id) with
  | none => (.error ⟨404, "Atleta não encontrado no id: " ++ toString id⟩, s)
  | some atleta =>
    if s.atletas.any (fun b =>
        (b.pk_id != atleta.pk_id) && (b.cpf == (applyUpdate atleta atleta_up).cpf)) then
      (.error ⟨303, "Já existe um atleta cadastrado com o cpf: " ++ dataGetCpf atleta_up⟩, s)
    else
      (.ok (applyUpdate atleta atleta_up),
        { s with
          atletas := s.atletas.map (fun b =>
            if b.pk_id == atleta.pk_id then applyUpdate atleta atleta_up else b) })

/-- `DELETE /{id}` — the `delete` handler: load by primary key (404 when
absent, unchanged store), otherwise remove the row and commit, returning no
content. -/
def delete (s : Store) (id : Nat) : Except HTTPException Unit × Store :=
  match s.atletas.find? (fun a => a.pk_id == id) with
  | none => (.error ⟨404, "Atleta não encontrado no id: " ++ toString id⟩, s)
  | some _ =>
      (.ok (), { s with atletas := s.atletas.filter (fun b => b.pk_id != id) })

/-- Spec-side row filter, written from the spec's words for the list
endpoint: "when a nome filter is present, only athletes whose name contains
it case-insensitively are returned; when a cpf filter is present, only
athletes whose CPF equals it exactly are returned", applied conjunctively. -/
def specFilter (nome cpf : Option String) (a : Atleta) : Bool :=
  (match nome with
   | none => true
   | some n => containsCI a.nome n)
  &&
  (match cpf with
   | none => true
   | some c => a.cpf == c)

deriving instance DecidableEq for Except

-- Concrete sample data used by the witnesses (mirrors the spec's concrete
-- scenario in section 8).
def catCrossFit : Categoria := ⟨1, "CrossFit"⟩

def ctCentro : CentroTreinamento := ⟨1, "CT Centro"⟩

def atletaMaria : Atleta := ⟨1, "Maria", "11122233344", 100, 1, 1⟩

def atletaAna : Atleta := ⟨2, "Mariana", "55544433322", 101, 1, 1⟩

def storeA : Store := ⟨[catCrossFit], [ctCentro], [atletaMaria, atletaAna], 3⟩








/-- Claim C1: for every create input, the category name is resolved by exact
match first and the training-center name second; if either lookup finds no
row, create fails with `ReferenceNotFound` (HTTP 400) with a message naming
the missing entity (the category when it is absent, the training center only
when the category exists but the training center is absent), and no athlete
row is written (the returned store is the pre-operation store). -/
theorem C1_create_resolves_references (now : Nat) (fault : Bool) (s : Store)
    (i : AtletaIn) :
    (s.categorias.find? (fun c => c.nome == i.categoria.nome) = none →
      post now fault s i =
        (.error ⟨400, "A categoria " ++ i.categoria.nome ++ " não foi encontrada."⟩, s))
    ∧
    (∀ cat, s.categorias.find? (fun c => c.nome == i.categoria.nome) = some cat →
      s.centros.find? (fun c => c.nome == i.centro_treinamento.nome) = none →
      post now fault s i =
        (.error ⟨400, "O centro de treinamento " ++ i.centro_treinamento.nome
          ++ " não foi encontrado."⟩, s)) := by
  refine ⟨fun h => ?_, fun cat hcat hct => ?_⟩
  · simp [post, h]
  · simp [post, hcat, hct]

/-- Witness for C1 at concrete inputs: a missing category name and a missing
training-center name against the sample store. -/
theorem C1_witness :
    post 7 false storeA ⟨"João", "00011122233", ⟨"Luta"⟩, ⟨"CT Centro"⟩⟩ =
      (.error ⟨400, "A categoria Luta não foi encontrada."⟩, storeA)
    ∧
    post 7 false storeA ⟨"João", "00011122233", ⟨"CrossFit"⟩, ⟨"CT Sul"⟩⟩ =
      (.error ⟨400, "O centro de treinamento CT Sul não foi encontrado."⟩, storeA) :=
  ⟨(C1_create_resolves_references 7 false storeA _).1 (by decide),
   (C1_create_resolves_references 7 false storeA _).2 catCrossFit (by decide) (by decide)⟩

/-- Claim C2: for every create whose references resolve, a persistence
failure is classified into exactly two cases: a unique-CPF violation fails
with `DuplicateKey` (HTTP 303) carrying the input CPF in the message, and any
other persistence failure fails with `StorageFailure` (HTTP 500) with a
generic message; in both cases the transaction is rolled back before
responding, so the store — in particular the athlete count — is unchanged. -/
theorem C2_create_persistence_failures (now : Nat) (fault : Bool) (s : Store)
    (i : AtletaIn) (cat : Categoria) (ct : CentroTreinamento)
    (hcat : s.categorias.find? (fun c => c.nome == i.categoria.nome) = some cat)
    (hct : s.centros.find? (fun c => c.nome == i.centro_treinamento.nome) = some ct) :
    (s.atletas.any (fun b => b.cpf == i.cpf) = true →
      post now fault s i =
        (.error ⟨303, "Já existe um atleta cadastrado com o cpf: " ++ i.cpf⟩, s)
      ∧ (post now fault s i).2.atletas.length = s.atletas.length)
    ∧
    (s.atletas.any (fun b => b.cpf == i.cpf) = false → fault = true →
      post now fault s i =
        (.error ⟨500, "Ocorreu um erro ao inserir os dados no banco"⟩, s)
      ∧ (post now fault s i).2.atletas.length = s.atletas.length) := by
  refine ⟨fun hdup => ?_, fun hdup hf => ?_⟩
  · constructor
    · simp [post, hcat, hct, hdup]
    · simp [post, hcat, hct, hdup]
  · constructor
    · simp [post, hcat, hct, hdup, hf]
    · simp [post, hcat, hct, hdup, hf]

/-- Witness for C2 at concrete inputs: a duplicate CPF against the sample
store, and an injected storage fault with a fresh CPF. -/
theorem C2_witness :
    post 7 false storeA ⟨"João", "11122233344", ⟨"CrossFit"⟩, ⟨"CT Centro"⟩⟩ =
      (.error ⟨303, "Já existe um atleta cadastrado com o cpf: 11122233344"⟩, storeA)
    ∧
    post 7 true storeA ⟨"João", "00011122233", ⟨"CrossFit"⟩, ⟨"CT Centro"⟩⟩ =
      (.error ⟨500, "Ocorreu um erro ao inserir os dados no banco"⟩, storeA) :=
  ⟨((C2_create_persistence_failures 7 false storeA _ catCrossFit ctCentro
      (by decide) (by decide)).1 (by decide)).1,
   ((C2_create_persistence_failures 7 true storeA _ catCrossFit ctCentro
      (by decide) (by decide)).2 (by decide) rfl).1⟩

/-- Claim C3: for every successful create, the operation returns the full
persisted record including the generated id (`next_id` at flush time) and a
creation timestamp taken from the server clock `now` — since `AtletaIn`
carries no timestamp field, this holds for every client input, so a
client-supplied timestamp cannot affect the stored value — and the row is
constructed with the foreign keys resolved from the given category and
training-center names; the row is appended to the store. -/
theorem C3_create_success (now : Nat) (s : Store) (i : AtletaIn)
    (cat : Categoria) (ct : CentroTreinamento)
    (hcat : s.categorias.find? (fun c => c.nome == i.categoria.nome) = some cat)
    (hct : s.centros.find? (fun c => c.nome == i.centro_treinamento.nome) = some ct)
    (hdup : s.atletas.any (fun b => b.cpf == i.cpf) = false) :
    post now false s i =
      (.ok (mkAtleta now s cat ct i),
        { s with
          atletas := s.atletas ++ [mkAtleta now s cat ct i]
          next_id := s.next_id + 1 })
    ∧ (mkAtleta now s cat ct i).created_at = now
    ∧ (mkAtleta now s cat ct i).pk_id = s.next_id
    ∧ (mkAtleta now s cat ct i).categoria_id = cat.pk_id
    ∧ (mkAtleta now s cat ct i).centro_treinamento_id = ct.pk_id
    ∧ (mkAtleta now s cat ct i).nome = i.nome
    ∧ (mkAtleta now s cat ct i).cpf = i.cpf := by
  refine ⟨?_, rfl, rfl, rfl, rfl, rfl, rfl⟩
  simp [post, hcat, hct, hdup]

/-- Witness for C3 at a concrete input: a fresh CPF with both references
resolving against the sample store. -/
theorem C3_witness :
    post 7 false storeA ⟨"João", "00011122233", ⟨"CrossFit"⟩, ⟨"CT Centro"⟩⟩ =
      (.ok ⟨3, "João", "00011122233", 7, 1, 1⟩,
        ⟨[catCrossFit], [ctCentro], [atletaMaria, atletaAna, ⟨3, "João", "00011122233", 7, 1, 1⟩], 4⟩)
    ∧ (⟨3, "João", "00011122233", 7, 1, 1⟩ : Atleta).created_at = 7 :=
  ⟨((C3_create_success 7 storeA _ catCrossFit ctCentro
      (by decide) (by decide) (by decide)).1).trans (by decide),
   ((C3_create_success 7 storeA ⟨"João", "00011122233", ⟨"CrossFit"⟩, ⟨"CT Centro"⟩⟩
      catCrossFit ctCentro (by decide) (by decide) (by decide)).2).1⟩

/-- An empty needle occurs in every haystack. -/
theorem hasSub_nil (l : List Char) : hasSub [] l = true := by
  induction l with
  | nil => rfl
  | cons c rest ih => simp [hasSub, List.isPrefixOf, ih]

/-- The case-insensitive contains filter with an empty filter string accepts
every name. -/
theorem containsCI_empty (x : String) : containsCI x "" = true := by
  simpa [containsCI] using hasSub_nil (x.data.map Char.toLower)

/-- Claim C4: for every list request, the optional filters are applied
conjunctively — a present `nome` filter keeps exactly the athletes whose name
contains it case-insensitively, a present `cpf` filter (which the route
validation constrains to exactly 11 characters) keeps exactly the athletes
whose CPF equals it — and with no filter present the full listing is
returned, still paginated.  Stated as a refinement: the handler equals the
spec-side filter `specFilter` composed with projection and pagination. -/
theorem C4_list_filters (s : Store) (nome cpf : Option String)
    (limit offset : Nat) (hcpf : ∀ c, cpf = some c → c.length = 11) :
    query s nome cpf limit offset =
      paginate limit offset ((s.atletas.filter (specFilter nome cpf)).map (projectA s))
    ∧ (nome = none → cpf = none →
        query s nome cpf limit offset =
          paginate limit offset (s.atletas.map (projectA s))) := by
  have hfil : queryMatched s nome cpf = s.atletas.filter (specFilter nome cpf) := by
    unfold queryMatched
    refine List.filter_congr ?_
    intro a _
    simp only [specFilter]
    cases cpf with
    | none =>
      cases nome with
      | none => rfl
      | some n =>
        by_cases hn : n = ""
        · simp [hn, containsCI_empty]
        · simp [hn]
    | some c =>
      have hne : ¬ c = "" := by
        intro h
        have hlen := hcpf c rfl
        rw [h] at hlen
        simp at hlen
      cases nome with
      | none => simp [hne]
      | some n =>
        by_cases hn : n = ""
        · simp [hn, hne, containsCI_empty]
        · simp [hn, hne]
  constructor
  · unfold query
    rw [hfil]
  · intro hn hc
    subst hn
    subst hc
    unfold query
    rw [hfil, show specFilter none none = fun _ : Atleta => true from rfl,
      List.filter_true]

/-- Witness for C4 at concrete inputs: a name filter against the sample
store, and the filterless full listing. -/
theorem C4_witness :
    query storeA (some "ana") none 10 0 =
      paginate 10 0 ((storeA.atletas.filter (specFilter (some "ana") none)).map (projectA storeA))
    ∧ query storeA none none 10 0 =
        paginate 10 0 (storeA.atletas.map (projectA storeA)) :=
  ⟨(C4_list_filters storeA (some "ana") none 10 0 (by simp)).1,
   (C4_list_filters storeA none none 10 0 (by simp)).2 rfl rfl⟩

-- An athlete whose foreign keys resolve to no stored category or training
-- center, used to exercise the empty-string fallback of the projection.
def atletaOrfa : Atleta := ⟨9, "Zed", "99999999999", 50, 77, 88⟩

/-- Claim C5: for every list request, all matching rows are materialized and
each is projected to a display shape with exactly the fields
name/category-name/training-center-name, the empty string is substituted when
a joined reference is missing, and limit/offset pagination is applied to the
projected list only after the projection of all matching rows (the page total
counts every matching row, not only the slice). -/
theorem C5_list_projection_then_pagination (s : Store) (nome cpf : Option String)
    (limit offset : Nat) (a : Atleta) :
    (query s nome cpf limit offset).items =
      (((queryMatched s nome cpf).map (projectA s)).drop offset).take limit
    ∧ (query s nome cpf limit offset).total = (queryMatched s nome cpf).length
    ∧ projectA s a =
        ⟨(projectA s a).nome, (projectA s a).categoria, (projectA s a).centro_treinamento⟩
    ∧ (projectA s a).nome = a.nome
    ∧ (s.categorias.find? (fun c => c.pk_id == a.categoria_id) = none →
        (projectA s a).categoria = "")
    ∧ (s.centros.find? (fun c => c.pk_id == a.centro_treinamento_id) = none →
        (projectA s a).centro_treinamento = "") := by
  refine ⟨rfl, ?_, rfl, rfl, fun h => ?_, fun h => ?_⟩
  · simp [query, paginate]
  · simp [projectA, h]
  · simp [projectA, h]

/-- Witness for C5 at concrete inputs: the sample store with a name filter,
plus an athlete with dangling references projected to empty strings. -/
theorem C5_witness :
    (query storeA (some "ana") none 10 0).items =
      (((queryMatched storeA (some "ana") none).map (projectA storeA)).drop 0).take 10
    ∧ (query storeA (some "ana") none 10 0).total =
        (queryMatched storeA (some "ana") none).length
    ∧ (projectA storeA atletaOrfa).categoria = ""
    ∧ (projectA storeA atletaOrfa).centro_treinamento = "" :=
  ⟨(C5_list_projection_then_pagination storeA (some "ana") none 10 0 atletaOrfa).1,
   (C5_list_projection_then_pagination storeA (some "ana") none 10 0 atletaOrfa).2.1,
   (C5_list_projection_then_pagination storeA (some "ana") none 10 0 atletaOrfa).2.2.2.2.1
     (by decide),
   (C5_list_projection_then_pagination storeA (some "ana") none 10 0 atletaOrfa).2.2.2.2.2
     (by decide)⟩

/-- Claim C10 (implicit): a `nome` or `cpf` query parameter supplied as the
empty string is treated exactly as if it were absent — the guards test Python
truthiness, not presence — so the handler returns the full unfiltered listing
rather than matching only empty values. -/
theorem C10_empty_filter_is_absent (s : Store) (filt : Option String)
    (limit offset : Nat) :
    query s (some "") filt limit offset = query s none filt limit offset
    ∧ query s filt (some "") limit offset = query s filt none limit offset := by
  constructor
  · simp [query, queryMatched]
  · simp [query, queryMatched]

/-- Claim C6: for every id, `get id` returns the full athlete record when a
row with that surrogate id exists, and fails with `NotFound` (HTTP 404) with
a message including the id when no row has that id; the handler takes no
store back out, so it performs no write. -/
theorem C6_get_by_id (s : Store) (id : Nat) :
    (s.atletas.find? (fun a => a.pk_id == id) = none →
      controller.get s id = .error ⟨404, "Atleta não encontrado no id: " ++ toString id⟩)
    ∧ (∀ a, s.atletas.find? (fun x => x.pk_id == id) = some a →
        controller.get s id = .ok a ∧ a.pk_id = id) := by
  refine ⟨fun h => by simp [controller.get, h], fun a ha => ⟨by simp [controller.get, ha], ?_⟩⟩
  have hp := List.find?_some ha
  simpa using hp

/-- Witness for C6 at concrete inputs: a missing id and an existing id
against the sample store. -/
theorem C6_witness :
    controller.get storeA 42 = .error ⟨404, "Atleta não encontrado no id: 42"⟩
    ∧ controller.get storeA 1 = .ok atletaMaria ∧ atletaMaria.pk_id = 1 :=
  ⟨(C6_get_by_id storeA 42).1 (by decide),
   (C6_get_by_id storeA 1).2 atletaMaria (by decide)⟩

/-- Claim C7: for every successful `patch id u`, exactly the fields present
in the payload are assigned onto the loaded row as raw values — foreign-key
columns included, with no name re-resolution — every absent field retains its
prior value, the surrogate id and creation timestamp never change, and the
full updated record is returned (with the row replaced in the store). -/
theorem C7_patch_partial_update (s : Store) (id : Nat) (u : AtletaUpdate)
    (a : Atleta)
    (hfind : s.atletas.find? (fun x => x.pk_id == id) = some a)
    (hok : s.atletas.any (fun b =>
        (b.pk_id != a.pk_id) && (b.cpf == (applyUpdate a u).cpf)) = false) :
    patch s id u =
      (.ok (applyUpdate a u),
        { s with
          atletas := s.atletas.map (fun b =>
            if b.pk_id == a.pk_id then applyUpdate a u else b) })
    ∧ (∀ v, u.nome = some v → (applyUpdate a u).nome = v)
    ∧ (u.nome = none → (applyUpdate a u).nome = a.nome)
    ∧ (∀ v, u.cpf = some v → (applyUpdate a u).cpf = v)
    ∧ (u.cpf = none → (applyUpdate a u).cpf = a.cpf)
    ∧ (∀ v, u.categoria_id = some v → (applyUpdate a u).categoria_id = v)
    ∧ (u.categoria_id = none → (applyUpdate a u).categoria_id = a.categoria_id)
    ∧ (∀ v, u.centro_treinamento_id = some v →
        (applyUpdate a u).centro_treinamento_id = v)
    ∧ (u.centro_treinamento_id = none →
        (applyUpdate a u).centro_treinamento_id = a.centro_treinamento_id)
    ∧ (applyUpdate a u).pk_id = a.pk_id
    ∧ (applyUpdate a u).created_at = a.created_at := by
  refine ⟨by simp [patch, hfind, hok],
    fun v hv => by simp [applyUpdate, hv],
    fun hv => by simp [applyUpdate, hv],
    fun v hv => by simp [applyUpdate, hv],
    fun hv => by simp [applyUpdate, hv],
    fun v hv => by simp [applyUpdate, hv],
    fun hv => by simp [applyUpdate, hv],
    fun v hv => by simp [applyUpdate, hv],
    fun hv => by simp [applyUpdate, hv],
    rfl, rfl⟩

/-- Witness for C7 at a concrete input: a payload carrying only a fresh CPF
applied to the first sample athlete; the name is retained and the CPF
replaced. -/
theorem C7_witness :
    patch storeA 1 ⟨none, some "00011122233", none, none⟩ =
      (.ok ⟨1, "Maria", "00011122233", 100, 1, 1⟩,
        ⟨[catCrossFit], [ctCentro],
          [⟨1, "Maria", "00011122233", 100, 1, 1⟩, atletaAna], 3⟩)
    ∧ (applyUpdate atletaMaria ⟨none, some "00011122233", none, none⟩).cpf
        = "00011122233"
    ∧ (applyUpdate atletaMaria ⟨none, some "00011122233", none, none⟩).nome
        = atletaMaria.nome :=
  ⟨((C7_patch_partial_update storeA 1 ⟨none, some "00011122233", none, none⟩
      atletaMaria (by decide) (by decide)).1).trans (by decide),
   (C7_patch_partial_update storeA 1 ⟨none, some "00011122233", none, none⟩
      atletaMaria (by decide) (by decide)).2.2.2.1 "00011122233" rfl,
   (C7_patch_partial_update storeA 1 ⟨none, some "00011122233", none, none⟩
      atletaMaria (by decide) (by decide)).2.2.1 rfl⟩

/-- Claim C8: for every `patch id u` that hits a unique-constraint violation
at commit time, the operation fails with `DuplicateKey` (HTTP 303) whose
message carries whatever CPF value was in the partial payload (Python renders
an absent one as `None`), the transaction is rolled back first, and the store
— in particular the row's CPF — is unchanged. -/
theorem C8_patch_duplicate_key (s : Store) (id : Nat) (u : AtletaUpdate)
    (a : Atleta)
    (hfind : s.atletas.find? (fun x => x.pk_id == id) = some a)
    (hconf : s.atletas.any (fun b =>
        (b.pk_id != a.pk_id) && (b.cpf == (applyUpdate a u).cpf)) = true) :
    patch s id u =
      (.error ⟨303, "Já existe um atleta cadastrado com o cpf: " ++ dataGetCpf u⟩, s)
    ∧ (∀ v, u.cpf = some v → dataGetCpf u = v)
    ∧ (u.cpf = none → dataGetCpf u = "None")
    ∧ (patch s id u).2 = s := by
  have hpatch : patch s id u =
      (.error ⟨303, "Já existe um atleta cadastrado com o cpf: " ++ dataGetCpf u⟩, s) := by
    simp [patch, hfind, hconf]
  refine ⟨hpatch, fun v hv => by simp [dataGetCpf, hv],
    fun hv => by simp [dataGetCpf, hv], by rw [hpatch]⟩

/-- Witness for C8 at a concrete input: updating the first sample athlete's
CPF to the second athlete's CPF fails with 303 and leaves the store
unchanged. -/
theorem C8_witness :
    patch storeA 1 ⟨none, some "55544433322", none, none⟩ =
      (.error ⟨303, "Já existe um atleta cadastrado com o cpf: 55544433322"⟩, storeA)
    ∧ (patch storeA 1 ⟨none, some "55544433322", none, none⟩).2 = storeA :=
  ⟨((C8_patch_duplicate_key storeA 1 ⟨none, some "55544433322", none, none⟩
      atletaMaria (by decide) (by decide)).1).trans (by decide),
   (C8_patch_duplicate_key storeA 1 ⟨none, some "55544433322", none, none⟩
      atletaMaria (by decide) (by decide)).2.2.2⟩

/-- Claim C9: for every id, `delete id` fails with `NotFound` (HTTP 404)
when no row has that id, leaving the store unchanged; otherwise it
permanently removes the row and returns no content, so that a subsequent
`get id` on the resulting store yields `NotFound`. -/
theorem C9_delete_then_get (s : Store) (id : Nat) :
    (s.atletas.find? (fun a => a.pk_id == id) = none →
      delete s id = (.error ⟨404, "Atleta não encontrado no id: " ++ toString id⟩, s))
    ∧ (∀ a, s.atletas.find? (fun x => x.pk_id == id) = some a →
        delete s id =
          (.ok (), { s with atletas := s.atletas.filter (fun b => b.pk_id != id) })
        ∧ controller.get (delete s id).2 id =
            .error ⟨404, "Atleta não encontrado no id: " ++ toString id⟩) := by
  refine ⟨fun h => by simp [delete, h], fun a ha => ?_⟩
  have hdel : delete s id =
      (.ok (), { s with atletas := s.atletas.filter (fun b => b.pk_id != id) }) := by
    simp [delete, ha]
  refine ⟨hdel, ?_⟩
  rw [hdel]
  have hnone : (s.atletas.filter (fun b => b.pk_id != id)).find?
      (fun x => x.pk_id == id) = none := by
    rw [List.find?_eq_none]
    intro x hx
    have hmem := List.mem_filter.mp hx
    simp only [bne_iff_ne, ne_eq] at hmem
    simp [hmem.2]
  simp [controller.get, hnone]

/-- Witness for C9 at concrete inputs: deleting a missing id and deleting
the first sample athlete, after which the same id is gone. -/
theorem C9_witness :
    delete storeA 42 = (.error ⟨404, "Atleta não encontrado no id: 42"⟩, storeA)
    ∧ delete storeA 1 = (.ok (), ⟨[catCrossFit], [ctCentro], [atletaAna], 3⟩)
    ∧ controller.get (delete storeA 1).2 1 = .error ⟨404, "Atleta não encontrado no id: 1"⟩ :=
  ⟨(C9_delete_then_get storeA 42).1 (by decide),
   (((C9_delete_then_get storeA 1).2 atletaMaria (by decide)).1).trans (by decide),
   ((C9_delete_then_get storeA 1).2 atletaMaria (by decide)).2⟩
